import Mathlib

/-!
Verification of the voice-note capture pipeline of the kavach chatbot
frontend (`lib/voice-recorder.ts` and the voice-note handlers of
`components/ChatInterface.tsx`).

The TypeScript source is shallowly embedded: pure functions become Lean
functions, the mutable `VoiceRecorder` object becomes explicit state
passing over a `Recorder` structure, platform behaviour (getUserMedia,
AudioContext, MediaRecorder) is a `Platform` record of capability flags
and results, and observable side effects (track stops, node disconnects,
engine close) are collected in an effect trace.

JavaScript numbers: the float32 samples are modelled as rationals (every
operation performed on them here - clamp, multiplication by 0x8000 /
0x7fff, truncation on store into an Int16Array - is exact on the float
values involved, so the rational model is faithful); `DataView.setUint32`
/ `setUint16` store their argument modulo 2^32 / 2^16, which the byte
serializers below reproduce.
-/

/-! ## Constants (`SAMPLE_RATE`, `NUM_CHANNELS`, `BUFFER_SIZE`) -/

def SAMPLE_RATE : ℕ := 44100

def NUM_CHANNELS : ℕ := 1

def BUFFER_SIZE : ℕ := 4096

/-! ## Sample conversion (`float32ToInt16`) -/

/-- JavaScript `Math.max(-1, Math.min(1, x))`. -/
def clamp (x : ℚ) : ℚ := max (-1) (min 1 x)

/-- Truncation toward zero, as performed by the ToInteger step of storing
a JS number into an `Int16Array`. -/
def truncTowardZero (q : ℚ) : ℤ := if 0 ≤ q then ⌊q⌋ else ⌈q⌉

/-- Wrap an integer into the signed 16-bit range, as an `Int16Array`
store does (modulo 2^16, reinterpreted as signed; `%` on `ℤ` is the
non-negative Euclidean remainder). -/
def toInt16 (z : ℤ) : ℤ :=
  let m := z % 65536
  if m < 32768 then m else m - 65536

/-- One iteration of the loop body of `float32ToInt16`:
`const s = Math.max(-1, Math.min(1, float32[i])); int16[i] = s < 0 ? s * 0x8000 : s * 0x7fff`. -/
def float32ToInt16Sample (x : ℚ) : ℤ :=
  let s := clamp x
  toInt16 (truncTowardZero (if s < 0 then s * 32768 else s * 32767))

/-- `float32ToInt16`: elementwise conversion of a frame. -/
def float32ToInt16 (frame : List ℚ) : List ℤ := frame.map float32ToInt16Sample

/-! ## WAV header (`createWavHeader`) -/

/-- Bytes of `DataView.setUint16(off, v, true)` (little endian, value
taken modulo 2^16). -/
def u16le (v : ℕ) : List ℕ := [v % 256, v / 256 % 256]

/-- Bytes of `DataView.setUint32(off, v, true)` (little endian, value
taken modulo 2^32). -/
def u32le (v : ℕ) : List ℕ :=
  [v % 256, v / 256 % 256, v / 65536 % 256, v / 16777216 % 256]

/-- `createWavHeader(dataLength)`: the 44 header bytes. -/
def createWavHeader (dataLength : ℕ) : List ℕ :=
  let byteRate := SAMPLE_RATE * NUM_CHANNELS * 2
  let blockAlign := NUM_CHANNELS * 2
  [82, 73, 70, 70] ++ u32le (36 + dataLength) ++
  [87, 65, 86, 69] ++ [102, 109, 116, 32] ++
  u32le 16 ++ u16le 1 ++ u16le NUM_CHANNELS ++ u32le SAMPLE_RATE ++
  u32le byteRate ++ u16le blockAlign ++ u16le 16 ++
  [100, 97, 116, 97] ++ u32le dataLength

/-- Little-endian bytes of one stored 16-bit sample (the `Int16Array`
buffer holds `z mod 2^16`). -/
def int16leBytes (z : ℤ) : List ℕ :=
  let u := (z % 65536).toNat
  [u % 256, u / 256]

/-- The raw bytes of an `Int16Array` buffer, in order. -/
def pcmBytes : List ℤ → List ℕ
  | [] => []
  | z :: zs => int16leBytes z ++ pcmBytes zs

/-- Little-endian decoding of a byte list (used to read header fields
back out of the produced artifact). -/
def bytesToNatLE : List ℕ → ℕ
  | [] => 0
  | b :: bs => b + 256 * bytesToNatLE bs

/-- Read `len` bytes at offset `off` of a byte buffer, little endian. -/
def readLE (bs : List ℕ) (off len : ℕ) : ℕ := bytesToNatLE ((bs.drop off).take len)

/-! ## JavaScript error values and observable effects -/

/-- A thrown JS value: either `new Error(msg)` or a platform `DOMException`
(whose `name` carries the error category). -/
inductive JsErr where
  | error (msg : String)
  | dom (name : String) (msg : String)
deriving DecidableEq, Repr

def jsName : JsErr → String
  | .error _ => "Error"
  | .dom n _ => n

def jsMessage : JsErr → String
  | .error m => m
  | .dom _ m => m

/-- Observable side effects of the recorder, in occurrence order. -/
inductive Effect where
  | getUserMediaCall
  | contextResume
  | processorDisconnect
  | sourceDisconnect
  | contextClose
  | trackStop (stream : ℕ)
  | mediaRecorderStopCall
deriving DecidableEq, Repr

/-- `needle` occurs as a prefix of `hay`. -/
def listPrefixEq : List Char → List Char → Bool
  | [], _ => true
  | _ :: _, [] => false
  | a :: as, b :: bs => a = b && listPrefixEq as bs

/-- JS `hay.includes(needle)` on strings. -/
def strIncludes (hay needle : String) : Bool :=
  (List.range (hay.toList.length + 1)).any
    (fun i => listPrefixEq needle.toList (hay.toList.drop i))

/-! ## Recorder state and platform model -/

/-- The `MediaRecorder.state` values the source inspects. -/
inductive MRRecState where
  | recording
  | inactive
deriving DecidableEq, Repr

/-- A constructed `MediaRecorder`: its state, the media type it reports
via `recorder.mimeType`, and the stream it was constructed over. -/
structure MRState where
  recState : MRRecState
  mimeType : String
  boundStream : ℕ
deriving DecidableEq, Repr

/-- The mutable fields of the `VoiceRecorder` class. Streams are
identified by a natural number; context/processor/source nodes are
tracked only by presence. -/
structure Recorder where
  stream : Option ℕ
  context : Option Unit
  processor : Option Unit
  source : Option Unit
  chunks : List (List ℤ)
  useMediaRecorder : Bool
  mediaRecorder : Option MRState
  mediaRecorderChunks : List (List ℕ)
deriving DecidableEq, Repr

/-- The field initializers of the class. -/
def initRecorder : Recorder :=
  { stream := none, context := none, processor := none, source := none,
    chunks := [], useMediaRecorder := false, mediaRecorder := none,
    mediaRecorderChunks := [] }

/-- `this.stream != null`. -/
def isRecording (r : Recorder) : Bool := r.stream.isSome

/-- Host-platform behaviour for one `start()` call: capability flags,
the result of `getUserMedia` (a fresh stream id or a thrown value), and
whether each step of the lossless graph construction succeeds. -/
structure Platform where
  mediaDevicesDefined : Bool
  getUserMediaDefined : Bool
  gumResult : Except JsErr ℕ
  hasAudioContextClass : Bool
  audioContextCtorOk : Bool
  startsSuspended : Bool
  resumeOk : Bool
  hasCreateScriptProcessor : Bool
  createMediaStreamSourceOk : Bool
  createScriptProcessorOk : Bool
  connectOk : Bool
  isTypeSupported : String → Bool
  mediaRecorderCtorOk : Bool
  reportedMimeType : String

/-! ## Device acquisition (`getAudioStream`) -/

def msgUnsupported : String := "Microphone not supported in this browser."

def msgInsecure : String := "Microphone access requires a secure connection (HTTPS)."

def msgDeviceNotFound : String :=
  "No microphone found. Connect a mic or allow microphone access in your browser or device settings. On mobile, use HTTPS and allow the site to use the microphone."

def msgPermissionDenied : String :=
  "Microphone access was denied. Please allow microphone permission and try again."

def msgDeviceBusy : String :=
  "Microphone is in use by another app. Close other apps using the mic and try again."

/-- `getAudioStream()`: capability check, then `getUserMedia`, then the
error-classification chain of the catch block. -/
def getAudioStream (p : Platform) : Except JsErr ℕ × List Effect :=
  if !(p.mediaDevicesDefined && p.getUserMediaDefined) then
    (.error (.error (if !p.mediaDevicesDefined then msgUnsupported else msgInsecure)), [])
  else
    match p.gumResult with
    | .ok s => (.ok s, [Effect.getUserMediaCall])
    | .error e =>
      if jsName e == "NotFoundError" || strIncludes (jsMessage e) "device not found" then
        (.error (.error msgDeviceNotFound), [Effect.getUserMediaCall])
      else if jsName e == "NotAllowedError" || jsName e == "PermissionDeniedError" then
        (.error (.error msgPermissionDenied), [Effect.getUserMediaCall])
      else if jsName e == "NotReadableError" then
        (.error (.error msgDeviceBusy), [Effect.getUserMediaCall])
      else
        (.error e, [Effect.getUserMediaCall])

/-! ## Start paths -/

/-- `getMediaRecorderMimeType()`: first supported of the preference
list, else the empty string. -/
def getMediaRecorderMimeType (p : Platform) : String :=
  let types := ["audio/webm;codecs=opus", "audio/webm", "audio/ogg;codecs=opus", "audio/mp4"]
  match types.find? p.isTypeSupported with
  | some t => t
  | none => ""

/-- `startMediaRecorderFallback(stream)`. The `useMediaRecorder` and
`mediaRecorderChunks` assignments happen before the `MediaRecorder`
constructor, so they survive a constructor throw. The constructed
recorder's `mimeType` property is the platform-negotiated one. -/
def startMediaRecorderFallback (p : Platform) (s : ℕ) (r : Recorder) :
    Except JsErr Unit × Recorder :=
  let r1 := { r with useMediaRecorder := true, mediaRecorderChunks := [] }
  let _requested := getMediaRecorderMimeType p
  let mr : MRState :=
    { recState := .recording, mimeType := p.reportedMimeType, boundStream := s }
  if p.mediaRecorderCtorOk then
    (.ok (), { r1 with mediaRecorder := some mr })
  else
    (.error (.dom "NotSupportedError" "MediaRecorder construction failed"), r1)

/-- The try-block of `start()`. -/
def startTry (p : Platform) (r0 : Recorder) : Except JsErr Unit × Recorder × List Effect :=
  match getAudioStream p with
  | (.error e, eff) => (.error e, r0, eff)
  | (.ok s, eff0) =>
    let r1 := { r0 with stream := some s }
    if !p.hasAudioContextClass then
      let (res, r2) := startMediaRecorderFallback p s r1
      (res, r2, eff0)
    else if !p.audioContextCtorOk then
      (.error (.dom "NotSupportedError" "AudioContext construction failed"), r1, eff0)
    else
      let r2 := { r1 with context := some () }
      if p.startsSuspended && !p.resumeOk then
        (.error (.error "resume failed"), r2, eff0 ++ [Effect.contextResume])
      else
        let eff1 := eff0 ++ (if p.startsSuspended then [Effect.contextResume] else [])
        if !p.hasCreateScriptProcessor then
          let r3 := { r2 with context := none }
          let (res, r4) := startMediaRecorderFallback p s r3
          (res, r4, eff1 ++ [Effect.contextClose])
        else if !p.createMediaStreamSourceOk then
          (.error (.dom "InvalidStateError" "createMediaStreamSource failed"), r2, eff1)
        else
          let r3 := { r2 with source := some () }
          if !p.createScriptProcessorOk then
            (.error (.dom "NotSupportedError" "createScriptProcessor failed"), r3, eff1)
          else
            let r4 := { r3 with processor := some (), chunks := [] }
            if !p.connectOk then
              (.error (.dom "InvalidStateError" "connect failed"), r4, eff1)
            else
              (.ok (), r4, eff1)

/-- `start()`: the try-block plus the catch-block's one-shot retry via
the MediaRecorder fallback (attempted only when a stream is held and the
fallback has not already been tried; on a failed retry the original
error is rethrown). -/
def start (p : Platform) (r0 : Recorder) : Except JsErr Unit × Recorder × List Effect :=
  match startTry p r0 with
  | (.ok _, r, eff) => (.ok (), r, eff)
  | (.error e, r, eff) =>
    match r.stream, r.useMediaRecorder with
    | some s, false =>
      let (res, r2) := startMediaRecorderFallback p s r
      (match res with
       | .ok _ => (.ok (), r2, eff)
       | .error _ => (.error e, r2, eff))
    | _, _ => (.error e, r, eff)

/-! ## Capture callbacks -/

/-- The `onaudioprocess` handler: converts the block and pushes it.
(The handler's `if (!this.chunks) return` guard never fires: an array is
always truthy.) -/
def processFrame (input : List ℚ) (r : Recorder) : Recorder :=
  { r with chunks := r.chunks ++ [float32ToInt16 input] }

/-- The `ondataavailable` handler: `if (e.data.size > 0) push(e.data)`. -/
def mrDataAvailable (data : List ℕ) (r : Recorder) : Recorder :=
  if 0 < data.length then
    { r with mediaRecorderChunks := r.mediaRecorderChunks ++ [data] }
  else r

/-! ## Stop paths -/

/-- How a `stop()` failure reaches the caller: thrown synchronously out
of the method, or delivered as a promise rejection. -/
inductive StopErr where
  | sync (e : JsErr)
  | async (e : JsErr)
deriving DecidableEq, Repr

/-- `stopWav()`: guard, teardown (processor disconnect, source
disconnect, context close, track stop — in that order), then assembly of
header + PCM bytes. -/
def stopWav (r : Recorder) : Except StopErr (List ℕ × String) × Recorder × List Effect :=
  if r.processor.isNone || r.source.isNone || r.context.isNone then
    (.error (.sync (.error "Recorder not started")), r, [])
  else
    let eff := [Effect.processorDisconnect, Effect.sourceDisconnect, Effect.contextClose] ++
      (match r.stream with | some s => [Effect.trackStop s] | none => [])
    let pcm := r.chunks.flatten
    let dataLength := pcm.length * 2
    let blob := createWavHeader dataLength ++ pcmBytes pcm
    ( .ok (blob, "audio/wav"),
      { r with stream := none, processor := none, source := none, context := none,
               chunks := [] },
      eff )

/-- `stopMediaRecorder()`. The environment supplies the data payloads
the encoder flushes at finalization (`finalChunks`, delivered through
`ondataavailable` before `onstop`) and whether finalization succeeds
(`stopOk`; when false, `onerror` fires and the promise rejects). -/
def stopMediaRecorder (finalChunks : List (List ℕ)) (stopOk : Bool) (r : Recorder) :
    Except StopErr (List ℕ × String) × Recorder × List Effect :=
  match r.mediaRecorder with
  | none => (.error (.sync (.error "Recorder not started")), r, [])
  | some mr =>
    if mr.recState = MRRecState.inactive then
      (.error (.sync (.error "Recorder not started")), r, [])
    else if !stopOk then
      let mrDone : MRState := { mr with recState := .inactive }
      ( .error (.async (.error "MediaRecorder failed")),
        { r with mediaRecorder := some mrDone },
        [Effect.mediaRecorderStopCall] )
    else
      let r1 := finalChunks.foldl (fun acc d => mrDataAvailable d acc) r
      let mime := if mr.mimeType = "" then "audio/webm" else mr.mimeType
      let blob := r1.mediaRecorderChunks.flatten
      ( .ok (blob, mime),
        { r1 with stream := none, mediaRecorder := none, mediaRecorderChunks := [] },
        [Effect.mediaRecorderStopCall] ++
          (match r.stream with | some s => [Effect.trackStop s] | none => []) )

/-- `stop()`: route to the active pipeline's stop path. -/
def stop (finalChunks : List (List ℕ)) (stopOk : Bool) (r : Recorder) :
    Except StopErr (List ℕ × String) × Recorder × List Effect :=
  if r.useMediaRecorder && r.mediaRecorder.isSome then
    stopMediaRecorder finalChunks stopOk r
  else
    stopWav r

/-! ## Caller layer (`ChatInterface.cancelVoiceNote`) -/

/-- The pieces of `ChatInterface` state the voice-note teardown touches. -/
structure UIState where
  recorderRef : Option Recorder
  intervalSet : Bool
  isRecordingFlag : Bool
  recordingDuration : ℕ
deriving DecidableEq, Repr

/-- `cancelVoiceNote()`: if a recorder is referenced and recording, call
`stop()` (a promise rejection is swallowed by `.catch`, but a
synchronous throw escapes) and drop the reference; then clear the
interval and the recording flags. -/
def cancelVoiceNote (finalChunks : List (List ℕ)) (stopOk : Bool) (ui : UIState) :
    Except JsErr (UIState × List Effect) :=
  let inner : Except JsErr (Option Recorder × List Effect) :=
    match ui.recorderRef with
    | some rec =>
      if isRecording rec then
        match stop finalChunks stopOk rec with
        | (.error (.sync e), _, _) => .error e
        | (_, _, eff) => .ok (none, eff)
      else .ok (some rec, [])
    | none => .ok (none, [])
  match inner with
  | .error e => .error e
  | .ok (ref2, eff) =>
    .ok ({ recorderRef := ref2, intervalSet := false, isRecordingFlag := false,
           recordingDuration := 0 }, eff)

/-! ## Spec-side conversion rule and effect counting -/

/-- Clamp-then-asymmetric-scale with no 16-bit wrap: the conversion rule
as the spec states it (negative values scale by 32768, non-negative by
32767, truncated toward zero). -/
def clampScale (x : ℚ) : ℤ :=
  let s := clamp x
  truncTowardZero (if s < 0 then s * 32768 else s * 32767)

/-- Number of `getUserMedia` invocations in an effect trace. -/
def countGUM : List Effect → ℕ
  | [] => 0
  | Effect.getUserMediaCall :: es => countGUM es + 1
  | _ :: es => countGUM es

/-! ## Concrete platforms and states used in closed theorems -/

/-- A fully capable platform: acquisition yields stream 7 and every step
of the lossless graph construction succeeds. -/
def pAllOk : Platform :=
  { mediaDevicesDefined := true, getUserMediaDefined := true, gumResult := Except.ok 7,
    hasAudioContextClass := true, audioContextCtorOk := true, startsSuspended := false,
    resumeOk := true, hasCreateScriptProcessor := true, createMediaStreamSourceOk := true,
    createScriptProcessorOk := true, connectOk := true, isTypeSupported := fun _ => false,
    mediaRecorderCtorOk := true, reportedMimeType := "" }

/-- Platform on which `getUserMedia` rejects with `NotAllowedError`. -/
def pPermissionDenied : Platform :=
  { pAllOk with gumResult := Except.error (.dom "NotAllowedError" "Permission denied") }

/-- Platform on which the `AudioContext` constructor and the
`MediaRecorder` constructor both throw: both pipelines fail. -/
def pBothPipelinesFail : Platform :=
  { pAllOk with audioContextCtorOk := false, mediaRecorderCtorOk := false }

/-- Platform with no `AudioContext` class at all (pure lossy fallback). -/
def pNoACC : Platform := { pAllOk with hasAudioContextClass := false }

/-- Platform on which `createMediaStreamSource` throws after the
`AudioContext` has been constructed. -/
def pMSSFail : Platform := { pAllOk with createMediaStreamSourceOk := false }

/-- Platform on which connecting the fully constructed processing graph
throws, so the session falls back to the lossy pipeline with the stale
context/source/processor handles still assigned. -/
def pConnFail : Platform := { pAllOk with connectOk := false }

/-- A `NotAllowedError` whose message text happens to contain the
substring the device-not-found heuristic looks for. -/
def eNotAllowedDnf : JsErr := .dom "NotAllowedError" "Requested device not found"

/-- Platform on which `getUserMedia` rejects with `eNotAllowedDnf`. -/
def pMisclassified : Platform := { pAllOk with gumResult := Except.error eNotAllowedDnf }

/-- A frame sequence of total sample count 2^31. -/
def bigChunks : List (List ℤ) := [List.replicate 2147483648 0]

/-- An active lossless session holding `bigChunks`. -/
def rBigSession : Recorder :=
  { stream := some 7, context := some (), processor := some (), source := some (),
    chunks := bigChunks, useMediaRecorder := false, mediaRecorder := none,
    mediaRecorderChunks := [] }

/-- An active lossless session with one three-sample frame. -/
def rThreeSamples : Recorder :=
  { stream := some 7, context := some (), processor := some (), source := some (),
    chunks := [[1, -1, 0]], useMediaRecorder := false, mediaRecorder := none,
    mediaRecorderChunks := [] }

/-- A constructed, recording `MediaRecorder` reporting `audio/mp4`. -/
def mrRec : MRState := { recState := .recording, mimeType := "audio/mp4", boundStream := 3 }

/-- An active lossy session with one previously emitted chunk. -/
def rMRActive : Recorder :=
  { stream := some 3, context := none, processor := none, source := none, chunks := [],
    useMediaRecorder := true, mediaRecorder := some mrRec, mediaRecorderChunks := [[9]] }

/-- An active lossless session with one one-sample frame. -/
def rWavLive : Recorder :=
  { stream := some 7, context := some (), processor := some (), source := some (),
    chunks := [[2]], useMediaRecorder := false, mediaRecorder := none,
    mediaRecorderChunks := [] }

/-- UI state with a live recording in progress. -/
def uiLive : UIState :=
  { recorderRef := some rWavLive, intervalSet := true, isRecordingFlag := true,
    recordingDuration := 5 }

/-- UI state after a completed cancel. -/
def uiIdle : UIState :=
  { recorderRef := none, intervalSet := false, isRecordingFlag := false,
    recordingDuration := 0 }

/-! ## Theorems: encoder basics -/

theorem pcmBytes_length (zs : List ℤ) : (pcmBytes zs).length = 2 * zs.length := by
  induction zs with
  | nil => rfl
  | cons z zs ih => simp [pcmBytes, int16leBytes, ih]; ring

theorem createWavHeader_length (d : ℕ) : (createWavHeader d).length = 44 := by
  simp [createWavHeader, u16le, u32le]

/-! ## Theorems: sample conversion (claim C2) -/

theorem neg_one_le_clamp (x : ℚ) : -1 ≤ clamp x := le_max_left _ _

theorem clamp_le_one (x : ℚ) : clamp x ≤ 1 :=
  max_le (by norm_num) (min_le_left _ _)

theorem toInt16_eq_of_range (z : ℤ) (h1 : -32768 ≤ z) (h2 : z ≤ 32767) : toInt16 z = z := by
  simp only [toInt16]
  split <;> omega

theorem clampScale_range (x : ℚ) : -32768 ≤ clampScale x ∧ clampScale x ≤ 32767 := by
  have hlo := neg_one_le_clamp x
  have hhi := clamp_le_one x
  unfold clampScale truncTowardZero
  set s := clamp x with hs
  by_cases hneg : s < 0
  · have hv1 : (-32768 : ℚ) ≤ s * 32768 := by nlinarith
    have hv2 : s * 32768 ≤ 0 := by nlinarith
    simp only [if_pos hneg]
    by_cases h0 : (0 : ℚ) ≤ s * 32768
    · simp only [if_pos h0]
      constructor
      · exact_mod_cast Int.le_floor.mpr (by exact_mod_cast hv1)
      · have hf := Int.floor_le (s * 32768)
        have h' : (⌊s * 32768⌋ : ℚ) ≤ 0 := le_trans hf hv2
        have h'' : ⌊s * 32768⌋ ≤ 0 := by exact_mod_cast h'
        omega
    · simp only [if_neg h0]
      constructor
      · have hc := Int.le_ceil (s * 32768)
        have h' : (-32768 : ℚ) ≤ (⌈s * 32768⌉ : ℚ) := le_trans hv1 hc
        exact_mod_cast h'
      · have h' : ⌈s * 32768⌉ ≤ 0 := Int.ceil_le.mpr (by exact_mod_cast hv2)
        omega
  · have h0 : (0 : ℚ) ≤ s := le_of_not_lt hneg
    have hv1 : (0 : ℚ) ≤ s * 32767 := by nlinarith
    have hv2 : s * 32767 ≤ 32767 := by nlinarith
    simp only [if_neg hneg, if_pos hv1]
    constructor
    · have h' : (0 : ℤ) ≤ ⌊s * 32767⌋ := Int.le_floor.mpr (by exact_mod_cast hv1)
      omega
    · have hf := Int.floor_le (s * 32767)
      have h' : (⌊s * 32767⌋ : ℚ) ≤ 32767 := le_trans hf hv2
      exact_mod_cast h'

theorem float32ToInt16Sample_eq (x : ℚ) : float32ToInt16Sample x = clampScale x := by
  have h := clampScale_range x
  unfold float32ToInt16Sample
  exact toInt16_eq_of_range _ h.1 h.2

theorem clamp_neg_one : clamp (-1) = -1 := by
  unfold clamp
  rw [min_eq_right (by norm_num), max_eq_right le_rfl]

theorem clamp_one : clamp 1 = 1 := by
  unfold clamp
  rw [min_eq_left le_rfl, max_eq_right (by norm_num)]

theorem clamp_zero : clamp 0 = 0 := by
  unfold clamp
  rw [min_eq_right (by norm_num), max_eq_right (by norm_num)]

theorem sample_at_neg_one : float32ToInt16Sample (-1) = -32768 := by
  rw [float32ToInt16Sample_eq]
  unfold clampScale
  rw [clamp_neg_one]
  norm_num [truncTowardZero]
  rw [show ((-32768 : ℚ)) = ((-32768 : ℤ) : ℚ) by norm_num, Int.ceil_intCast]

theorem sample_at_one : float32ToInt16Sample 1 = 32767 := by
  rw [float32ToInt16Sample_eq]
  unfold clampScale
  rw [clamp_one]
  norm_num [truncTowardZero]

theorem sample_at_zero : float32ToInt16Sample 0 = 0 := by
  rw [float32ToInt16Sample_eq]
  unfold clampScale
  rw [clamp_zero]
  norm_num [truncTowardZero]

/-- C2: for every input sample, `float32ToInt16` first clamps to
[-1, 1] and then scales clamped negative values by 32768 and clamped
non-negative values by 32767 (this is `clampScale`); the stored 16-bit
value equals that mathematical value, i.e. no signed-integer overflow or
wraparound occurs, and it always lies in [-32768, 32767]; the inputs
-1.0, 1.0 and 0.0 produce -32768, 32767 and 0. -/
theorem claim_C2_sample_conversion :
    ∀ x : ℚ,
      (float32ToInt16Sample x = clampScale x ∧
       -32768 ≤ float32ToInt16Sample x ∧ float32ToInt16Sample x ≤ 32767) ∧
      float32ToInt16Sample (-1) = -32768 ∧
      float32ToInt16Sample 1 = 32767 ∧
      float32ToInt16Sample 0 = 0 := by
  intro x
  have he := float32ToInt16Sample_eq x
  have hr := clampScale_range x
  exact ⟨⟨he, by rw [he]; exact hr.1, by rw [he]; exact hr.2⟩,
         sample_at_neg_one, sample_at_one, sample_at_zero⟩

/-! ## Theorems: WAV header fields -/

theorem readLE_header_fileSize (d : ℕ) (tail : List ℕ) (h : 36 + d < 4294967296) :
    readLE (createWavHeader d ++ tail) 4 4 = 36 + d := by
  have e : readLE (createWavHeader d ++ tail) 4 4
      = (36+d)%256 + 256*((36+d)/256%256 + 256*((36+d)/65536%256 + 256*((36+d)/16777216%256 + 256*0))) := rfl
  rw [e]
  omega

theorem readLE_header_dataLen (d : ℕ) (tail : List ℕ) (h : d < 4294967296) :
    readLE (createWavHeader d ++ tail) 40 4 = d := by
  have e : readLE (createWavHeader d ++ tail) 40 4
      = d%256 + 256*(d/256%256 + 256*(d/65536%256 + 256*(d/16777216%256 + 256*0))) := rfl
  rw [e]
  omega

theorem readLE_header_fmtTag (d : ℕ) (tail : List ℕ) :
    readLE (createWavHeader d ++ tail) 20 2 = 1 := rfl

theorem readLE_header_channels (d : ℕ) (tail : List ℕ) :
    readLE (createWavHeader d ++ tail) 22 2 = 1 := rfl

theorem readLE_header_sampleRate (d : ℕ) (tail : List ℕ) :
    readLE (createWavHeader d ++ tail) 24 4 = 44100 := by
  have e : readLE (createWavHeader d ++ tail) 24 4 = bytesToNatLE (u32le SAMPLE_RATE) := rfl
  rw [e]
  norm_num [u32le, bytesToNatLE, SAMPLE_RATE]

theorem readLE_header_byteRate (d : ℕ) (tail : List ℕ) :
    readLE (createWavHeader d ++ tail) 28 4 = 88200 := by
  have e : readLE (createWavHeader d ++ tail) 28 4
      = bytesToNatLE (u32le (SAMPLE_RATE * NUM_CHANNELS * 2)) := rfl
  rw [e]
  norm_num [u32le, bytesToNatLE, SAMPLE_RATE, NUM_CHANNELS]

theorem readLE_header_blockAlign (d : ℕ) (tail : List ℕ) :
    readLE (createWavHeader d ++ tail) 32 2 = 2 := rfl

theorem readLE_header_bits (d : ℕ) (tail : List ℕ) :
    readLE (createWavHeader d ++ tail) 34 2 = 16 := rfl

/-! ## Theorems: stop paths, characterizations -/

theorem stopWav_eq_of_active (r : Recorder)
    (hp : r.processor = some ()) (hs : r.source = some ()) (hc : r.context = some ()) :
    stopWav r =
      ( Except.ok (createWavHeader (r.chunks.flatten.length * 2) ++ pcmBytes r.chunks.flatten,
          "audio/wav"),
        { r with stream := none, processor := none, source := none, context := none,
                 chunks := [] },
        [Effect.processorDisconnect, Effect.sourceDisconnect, Effect.contextClose] ++
          (match r.stream with | some s => [Effect.trackStop s] | none => []) ) := by
  unfold stopWav
  rw [hp, hs, hc]
  simp

theorem foldl_mrDataAvailable (fc : List (List ℕ)) (r : Recorder) :
    fc.foldl (fun acc d => mrDataAvailable d acc) r =
      { r with mediaRecorderChunks :=
          r.mediaRecorderChunks ++ fc.filter (fun c => decide (0 < c.length)) } := by
  induction fc generalizing r with
  | nil => simp
  | cons d rest ih =>
    simp only [List.foldl_cons, List.filter_cons]
    by_cases hd : 0 < d.length
    · rw [show mrDataAvailable d r =
          { r with mediaRecorderChunks := r.mediaRecorderChunks ++ [d] } from by
          unfold mrDataAvailable; rw [if_pos hd]]
      rw [ih]
      simp [hd]
    · rw [show mrDataAvailable d r = r from by unfold mrDataAvailable; rw [if_neg hd]]
      rw [ih]
      simp [hd]

/-! ## Claim C1 -/

/-- C1 (amended): for every recorded lossless session, the stop path
produces `audio/wav` bytes equal to the 44-byte header followed by the
raw 16-bit sample bytes in frame order, of total length exactly
`44 + 2N` where `N` is the total sample count; and whenever
`36 + 2N < 2^32` (so the 32-bit size fields do not wrap) the header
declares file-size-minus-8 `36 + 2N`, format tag 1, channel count 1,
sample rate 44100, byte rate 88200, block align 2, bits-per-sample 16
and data-chunk length `2N`. The header construction is a total function
of `N` with no failure mode, the zero-frame case included. -/
theorem claim_C1_lossless_artifact :
    ∀ (r : Recorder) (frames : List (List ℤ)),
      r.processor = some () → r.source = some () → r.context = some () →
      r.chunks = frames →
      (stopWav r).1 =
        Except.ok
          (createWavHeader (2 * (frames.map List.length).sum) ++ pcmBytes frames.flatten,
           "audio/wav") ∧
      (createWavHeader (2 * (frames.map List.length).sum) ++ pcmBytes frames.flatten).length
        = 44 + 2 * (frames.map List.length).sum ∧
      (36 + 2 * (frames.map List.length).sum < 4294967296 →
        readLE (createWavHeader (2 * (frames.map List.length).sum) ++ pcmBytes frames.flatten) 4 4
          = 36 + 2 * (frames.map List.length).sum ∧
        readLE (createWavHeader (2 * (frames.map List.length).sum) ++ pcmBytes frames.flatten) 20 2
          = 1 ∧
        readLE (createWavHeader (2 * (frames.map List.length).sum) ++ pcmBytes frames.flatten) 22 2
          = 1 ∧
        readLE (createWavHeader (2 * (frames.map List.length).sum) ++ pcmBytes frames.flatten) 24 4
          = 44100 ∧
        readLE (createWavHeader (2 * (frames.map List.length).sum) ++ pcmBytes frames.flatten) 28 4
          = 88200 ∧
        readLE (createWavHeader (2 * (frames.map List.length).sum) ++ pcmBytes frames.flatten) 32 2
          = 2 ∧
        readLE (createWavHeader (2 * (frames.map List.length).sum) ++ pcmBytes frames.flatten) 34 2
          = 16 ∧
        readLE (createWavHeader (2 * (frames.map List.length).sum) ++ pcmBytes frames.flatten) 40 4
          = 2 * (frames.map List.length).sum) := by
  intro r frames hp hs hc hch
  have hN : frames.flatten.length = (frames.map List.length).sum := List.length_flatten frames
  refine ⟨?_, ?_, ?_⟩
  · have h := stopWav_eq_of_active r hp hs hc
    have h1 : (stopWav r).1 =
        Except.ok (createWavHeader (r.chunks.flatten.length * 2) ++
          pcmBytes r.chunks.flatten, "audio/wav") := by rw [h]
    rw [h1, hch, hN, Nat.mul_comm]
  · rw [List.length_append, createWavHeader_length, pcmBytes_length, hN]
  · intro hlt
    refine ⟨readLE_header_fileSize _ _ hlt, readLE_header_fmtTag _ _,
      readLE_header_channels _ _, readLE_header_sampleRate _ _, readLE_header_byteRate _ _,
      readLE_header_blockAlign _ _, readLE_header_bits _ _,
      readLE_header_dataLen _ _ (by omega)⟩

/-- Witness for C1: on a session with one frame of three samples, the
file-size field of the produced artifact equals `36 + 2 * 3`. -/
theorem claim_C1_witness :
    readLE (createWavHeader (2 * (([[1, -1, 0]] : List (List ℤ)).map List.length).sum) ++
        pcmBytes ([[1, -1, 0]] : List (List ℤ)).flatten) 4 4
      = 36 + 2 * (([[1, -1, 0]] : List (List ℤ)).map List.length).sum :=
  ((claim_C1_lossless_artifact rThreeSamples [[1, -1, 0]] rfl rfl rfl rfl).2.2
    (by norm_num)).1

theorem big_sum : (bigChunks.map List.length).sum = 2147483648 := by
  unfold bigChunks
  rw [List.map_cons, List.map_nil, List.length_replicate, List.sum_cons, List.sum_nil,
    Nat.add_zero]

theorem big_flatten : bigChunks.flatten = List.replicate 2147483648 (0 : ℤ) := by
  unfold bigChunks
  rw [List.flatten_cons, List.flatten_nil, List.append_nil]

theorem big_len : bigChunks.flatten.length * 2 = 4294967296 := by
  rw [big_flatten, List.length_replicate]

/-- Counterexample to C1 as stated: at total sample count `N = 2^31`
(one frame of 2^31 zero samples) the stop path still resolves, but the
32-bit file-size field wraps modulo 2^32, so header bytes 4-7 decode to
36, not `36 + 2N`. -/
theorem claim_C1_counterexample :
    (bigChunks.map List.length).sum = 2147483648 ∧
    (stopWav rBigSession).1 =
      Except.ok (createWavHeader 4294967296 ++ pcmBytes bigChunks.flatten, "audio/wav") ∧
    readLE (createWavHeader 4294967296 ++ pcmBytes bigChunks.flatten) 4 4 = 36 ∧
    (36 : ℕ) ≠ 36 + 2 * 2147483648 := by
  refine ⟨big_sum, ?_, ?_, by norm_num⟩
  · have h := stopWav_eq_of_active rBigSession rfl rfl rfl
    have h1 : (stopWav rBigSession).1 =
        Except.ok (createWavHeader (rBigSession.chunks.flatten.length * 2) ++
          pcmBytes rBigSession.chunks.flatten, "audio/wav") := by rw [h]
    have hc : rBigSession.chunks = bigChunks := rfl
    rw [h1, hc, big_len]
  · have e : readLE (createWavHeader 4294967296 ++ pcmBytes bigChunks.flatten) 4 4
        = bytesToNatLE (u32le (36 + 4294967296)) := rfl
    rw [e]
    norm_num [u32le, bytesToNatLE]

/-! ## Claim C3 -/

/-- C3 (code-bug evidence): when acquisition itself fails with a
permission-denied classification, `start()` rejects with the
permission-denied message and `isRecording` is false, as the claim says;
but on the exit path where both pipelines fail (the audio-engine
constructor throws and the `MediaRecorder` constructor throws),
`start()` rejects while the acquired device stream is still held — its
tracks are never stopped and `isRecording` is true immediately after the
rejection, contradicting the claimed scoped-release discipline. -/
theorem claim_C3_start_reject_paths :
    ((start pPermissionDenied initRecorder).1 =
        Except.error (JsErr.error msgPermissionDenied) ∧
     isRecording (start pPermissionDenied initRecorder).2.1 = false) ∧
    ((start pBothPipelinesFail initRecorder).1 =
        Except.error (JsErr.dom "NotSupportedError" "AudioContext construction failed") ∧
     isRecording (start pBothPipelinesFail initRecorder).2.1 = true ∧
     (start pBothPipelinesFail initRecorder).2.1.stream = some 7) := by
  refine ⟨⟨?_, ?_⟩, ?_, ?_, ?_⟩ <;> rfl

/-! ## Claim C4 -/

/-- C4 (amended): on the lossy pipeline, calling stop with no encoder
constructed, or on an already-finalized encoder, fails loudly with the
`Recorder not started` error; the data-available handler appends exactly
the chunks of nonzero size, in emission order; and a stop of an active
encoder resolves with the concatenation, in emission order, of all
appended nonzero chunks (which is the empty byte sequence if no chunk
was ever emitted — stop does NOT fail loudly in that case), tagged with
the encoder's reported media type, falling back to `audio/webm` when the
encoder reports none. -/
theorem claim_C4_lossy_stop :
    ∀ (fc : List (List ℕ)) (b : Bool) (r : Recorder) (d : List ℕ) (mr : MRState),
      (r.mediaRecorder = none →
        (stopMediaRecorder fc b r).1 =
          Except.error (.sync (.error "Recorder not started"))) ∧
      (r.mediaRecorder = some mr → mr.recState = MRRecState.inactive →
        (stopMediaRecorder fc b r).1 =
          Except.error (.sync (.error "Recorder not started"))) ∧
      (d.length = 0 → mrDataAvailable d r = r) ∧
      (0 < d.length → mrDataAvailable d r =
        { r with mediaRecorderChunks := r.mediaRecorderChunks ++ [d] }) ∧
      (r.mediaRecorder = some mr → mr.recState = MRRecState.recording →
        (stopMediaRecorder fc true r).1 =
          Except.ok
            ((r.mediaRecorderChunks ++ fc.filter (fun c => decide (0 < c.length))).flatten,
             if mr.mimeType = "" then "audio/webm" else mr.mimeType)) := by
  intro fc b r d mr
  refine ⟨?_, ?_, ?_, ?_, ?_⟩
  · intro hmr
    simp [stopMediaRecorder, hmr]
  · intro hmr hst
    simp [stopMediaRecorder, hmr, hst]
  · intro hd
    unfold mrDataAvailable
    rw [if_neg (by omega)]
  · intro hd
    unfold mrDataAvailable
    rw [if_pos hd]
  · intro hmr hst
    have hne : ¬ mr.recState = MRRecState.inactive := by
      rw [hst]; intro hcon; exact absurd hcon (by simp)
    simp [stopMediaRecorder, hmr, hne, foldl_mrDataAvailable]

/-- Witness for C4: stopping an active encoder that already emitted one
chunk, with a finalization flush of one nonzero and one empty chunk,
resolves with the ordered concatenation tagged with the reported type. -/
theorem claim_C4_witness :
    (stopMediaRecorder [[5], []] true rMRActive).1 =
      Except.ok
        ((rMRActive.mediaRecorderChunks ++
            ([[5], []] : List (List ℕ)).filter (fun c => decide (0 < c.length))).flatten,
         if mrRec.mimeType = "" then "audio/webm" else mrRec.mimeType) :=
  (claim_C4_lossy_stop [[5], []] true rMRActive [] mrRec).2.2.2.2 rfl rfl

/-- Counterexample to C4 as stated: a session started on the lossy
pipeline and stopped before any chunk has been emitted does not fail
loudly — it silently resolves with a zero-byte artifact. -/
theorem claim_C4_counterexample :
    (start pNoACC initRecorder).1 = Except.ok () ∧
    (start pNoACC initRecorder).2.1.useMediaRecorder = true ∧
    (start pNoACC initRecorder).2.1.mediaRecorderChunks = [] ∧
    ((start pNoACC initRecorder).2.1.mediaRecorder.map MRState.recState) =
      some MRRecState.recording ∧
    (stop [] true (start pNoACC initRecorder).2.1).1 = Except.ok ([], "audio/webm") := by
  refine ⟨rfl, rfl, rfl, rfl, rfl⟩

/-! ## Claim C5 -/

/-- C5: whenever the device stream is acquired but the lossless pipeline
is unsupported or its construction throws at any step, while the
`MediaRecorder` constructor succeeds, `start()` still resolves, the
session is Recording (`isRecording` true) on the lossy pipeline, the
`MediaRecorder` is bound to the very stream that was acquired, and
`getUserMedia` was called exactly once. -/
theorem claim_C5_fallback_single_acquisition :
    ∀ (p : Platform) (s : ℕ),
      p.mediaDevicesDefined = true → p.getUserMediaDefined = true →
      p.gumResult = Except.ok s →
      (p.hasAudioContextClass = false ∨ p.audioContextCtorOk = false ∨
       (p.startsSuspended = true ∧ p.resumeOk = false) ∨
       p.hasCreateScriptProcessor = false ∨ p.createMediaStreamSourceOk = false ∨
       p.createScriptProcessorOk = false ∨ p.connectOk = false) →
      p.mediaRecorderCtorOk = true →
      (start p initRecorder).1 = Except.ok () ∧
      isRecording (start p initRecorder).2.1 = true ∧
      (start p initRecorder).2.1.stream = some s ∧
      (start p initRecorder).2.1.useMediaRecorder = true ∧
      ((start p initRecorder).2.1.mediaRecorder.map MRState.boundStream) = some s ∧
      countGUM (start p initRecorder).2.2 = 1 := by
  intro p s h1 h2 h3 hfail h5
  rcases p with ⟨md, gd, gr, hac, acOk, susp, resOk, hcsp, cmss, cspOk, conOk, its, mrOk, rep⟩
  simp only at h1 h2 h3 h5 hfail
  subst h1; subst h2; subst h3; subst h5
  cases hac <;> cases acOk <;> cases susp <;> cases resOk <;> cases hcsp <;>
    cases cmss <;> cases cspOk <;> cases conOk <;>
      simp_all [start, startTry, getAudioStream, startMediaRecorderFallback, isRecording,
        initRecorder, countGUM]

/-- Witness for C5: with no audio-engine class present, the session
reaches Recording on the lossy pipeline over stream 7 with exactly one
acquisition. -/
theorem claim_C5_witness :
    (start pNoACC initRecorder).1 = Except.ok () ∧
    isRecording (start pNoACC initRecorder).2.1 = true ∧
    (start pNoACC initRecorder).2.1.stream = some 7 ∧
    (start pNoACC initRecorder).2.1.useMediaRecorder = true ∧
    ((start pNoACC initRecorder).2.1.mediaRecorder.map MRState.boundStream) = some 7 ∧
    countGUM (start pNoACC initRecorder).2.2 = 1 :=
  claim_C5_fallback_single_acquisition pNoACC 7 rfl rfl rfl (Or.inl rfl) rfl

/-! ## Claim C6 -/

/-- C6 (amended): calling `stop()` when no session is active and no
stale lossless graph handles are held (no stream, no graph nodes, no
encoder — the initial state, and the state after a completed stop of a
lossless session or of a lossy session without partial lossless
construction) always fails with the NotRecording error
(`Recorder not started`), returns the recorder state exactly unchanged
and performs no effects. The no-stale-handles proviso is necessary: see
the counterexample, where a second stop after a connect-failure
fallback session's completed stop resolves with an empty artifact and
mutates state. -/
theorem claim_C6_stop_idle :
    ∀ (fc : List (List ℕ)) (b : Bool) (r : Recorder),
      r.stream = none → r.processor = none → r.source = none → r.context = none →
      r.mediaRecorder = none →
      stop fc b r = (Except.error (.sync (.error "Recorder not started")), r, []) := by
  intro fc b r h1 h2 h3 h4 h5
  unfold stop
  have hmr : (r.useMediaRecorder && r.mediaRecorder.isSome) = false := by
    rw [h5]; simp
  rw [hmr]
  simp only [Bool.false_eq_true, if_false]
  unfold stopWav
  rw [h2]
  simp

/-- Witness for C6: stop on the freshly constructed recorder fails with
the NotRecording error and leaves the state untouched. -/
theorem claim_C6_witness :
    stop [] true initRecorder =
      (Except.error (.sync (.error "Recorder not started")), initRecorder, []) :=
  claim_C6_stop_idle [] true initRecorder rfl rfl rfl rfl rfl

/-- Counterexample to C6 as stated: when the graph connect throws after
full construction, `start` falls back to the lossy pipeline with the
context/source/processor handles still assigned; after that session's
completed stop (`isRecording` false — an Idle state "after a completed
stop"), a second `stop()` does not fail with NotRecording: it routes to
the WAV path, whose guard passes on the stale handles, resolves with a
spurious empty 44-byte WAV artifact, and mutates the state (the stale
engine handle goes from held to null). -/
theorem claim_C6_counterexample :
    (start pConnFail initRecorder).1 = Except.ok () ∧
    (stop [[1]] true (start pConnFail initRecorder).2.1).1 =
      Except.ok ([1], "audio/webm") ∧
    isRecording (stop [[1]] true (start pConnFail initRecorder).2.1).2.1 = false ∧
    (stop [[1]] true (start pConnFail initRecorder).2.1).2.1.context = some () ∧
    (stop [] true (stop [[1]] true (start pConnFail initRecorder).2.1).2.1).1 =
      Except.ok (createWavHeader 0 ++ pcmBytes [], "audio/wav") ∧
    (stop [] true (stop [[1]] true (start pConnFail initRecorder).2.1).2.1).2.1.context =
      none := by
  refine ⟨rfl, rfl, rfl, rfl, rfl, rfl⟩

/-! ## Claim C7 -/

/-- C7: if one call to the caller-level release path `cancelVoiceNote`
completes without throwing, a second call on the resulting state also
does not throw, performs no effects at all (in particular it does not
stop the device stream's tracks again) and leaves the state unchanged. -/
theorem claim_C7_teardown_idempotent :
    ∀ (fc : List (List ℕ)) (b : Bool) (fc2 : List (List ℕ)) (b2 : Bool)
      (ui ui1 : UIState) (eff1 : List Effect),
      cancelVoiceNote fc b ui = Except.ok (ui1, eff1) →
      cancelVoiceNote fc2 b2 ui1 = Except.ok (ui1, []) := by
  intro fc b fc2 b2 ui ui1 eff1 h
  rcases href : ui.recorderRef with - | rec
  · unfold cancelVoiceNote at h
    simp only [href] at h
    simp only [Except.ok.injEq, Prod.mk.injEq] at h
    obtain ⟨h1, -⟩ := h
    subst h1
    unfold cancelVoiceNote
    rfl
  · unfold cancelVoiceNote at h
    simp only [href] at h
    by_cases hrec : isRecording rec = true
    · rw [if_pos hrec] at h
      rcases hstop : stop fc b rec with ⟨res, r2, eff⟩
      rw [hstop] at h
      rcases res with e | v
      · rcases e with e | e
        · simp at h
        · simp only [Except.ok.injEq, Prod.mk.injEq] at h
          obtain ⟨h1, -⟩ := h
          subst h1
          unfold cancelVoiceNote
          rfl
      · simp only [Except.ok.injEq, Prod.mk.injEq] at h
        obtain ⟨h1, -⟩ := h
        subst h1
        unfold cancelVoiceNote
        rfl
    · rw [if_neg hrec] at h
      simp only [Except.ok.injEq, Prod.mk.injEq] at h
      obtain ⟨h1, -⟩ := h
      subst h1
      have hrec2 : isRecording rec = false := by
        revert hrec; cases isRecording rec <;> simp
      unfold cancelVoiceNote
      simp [hrec2]

/-- Witness for C7: cancelling a live session releases it; cancelling
again from the released state is a no-op that succeeds with no effects. -/
theorem claim_C7_witness :
    cancelVoiceNote [] true uiIdle = Except.ok (uiIdle, []) :=
  claim_C7_teardown_idempotent [] true [] true uiLive uiIdle
    [Effect.processorDisconnect, Effect.sourceDisconnect, Effect.contextClose,
     Effect.trackStop 7] (by rfl)

/-! ## Claim C8 -/

/-- C8 (amended): acquisition either returns a stream or fails with
exactly one of the six outcomes — the unsupported-platform message, the
insecure-context message, the device-not-found message, the
permission-denied message, the device-busy message, or the raw
unclassified error passed through; the five fixed messages are pairwise
distinct; missing capture capability and missing secure context are
distinguished; `NotFoundError` (or a message containing `device not
found`) maps to the device-not-found message, and
`NotAllowedError`/`PermissionDeniedError` and `NotReadableError` map to
the permission-denied and device-busy messages respectively — unless the
error's message contains the `device not found` substring, which takes
precedence and maps to the device-not-found message. -/
theorem claim_C8_acquire_classification :
    ∀ p : Platform,
      ((∃ s, (getAudioStream p).1 = Except.ok s) ∨
       (getAudioStream p).1 = Except.error (.error msgUnsupported) ∨
       (getAudioStream p).1 = Except.error (.error msgInsecure) ∨
       (getAudioStream p).1 = Except.error (.error msgDeviceNotFound) ∨
       (getAudioStream p).1 = Except.error (.error msgPermissionDenied) ∨
       (getAudioStream p).1 = Except.error (.error msgDeviceBusy) ∨
       (∃ e, p.gumResult = Except.error e ∧ (getAudioStream p).1 = Except.error e)) ∧
      (msgUnsupported ≠ msgInsecure ∧ msgUnsupported ≠ msgDeviceNotFound ∧
       msgUnsupported ≠ msgPermissionDenied ∧ msgUnsupported ≠ msgDeviceBusy ∧
       msgInsecure ≠ msgDeviceNotFound ∧ msgInsecure ≠ msgPermissionDenied ∧
       msgInsecure ≠ msgDeviceBusy ∧ msgDeviceNotFound ≠ msgPermissionDenied ∧
       msgDeviceNotFound ≠ msgDeviceBusy ∧ msgPermissionDenied ≠ msgDeviceBusy) ∧
      (p.mediaDevicesDefined = false →
        (getAudioStream p).1 = Except.error (.error msgUnsupported)) ∧
      (p.mediaDevicesDefined = true → p.getUserMediaDefined = false →
        (getAudioStream p).1 = Except.error (.error msgInsecure)) ∧
      (∀ e, p.mediaDevicesDefined = true → p.getUserMediaDefined = true →
        p.gumResult = Except.error e →
        ((jsName e = "NotFoundError" →
            (getAudioStream p).1 = Except.error (.error msgDeviceNotFound)) ∧
         (strIncludes (jsMessage e) "device not found" = true →
            (getAudioStream p).1 = Except.error (.error msgDeviceNotFound)) ∧
         (strIncludes (jsMessage e) "device not found" = false →
           (jsName e = "NotAllowedError" ∨ jsName e = "PermissionDeniedError") →
            (getAudioStream p).1 = Except.error (.error msgPermissionDenied)) ∧
         (strIncludes (jsMessage e) "device not found" = false →
           jsName e = "NotReadableError" →
            (getAudioStream p).1 = Except.error (.error msgDeviceBusy)) ∧
         (jsName e ≠ "NotFoundError" → jsName e ≠ "NotAllowedError" →
          jsName e ≠ "PermissionDeniedError" → jsName e ≠ "NotReadableError" →
          strIncludes (jsMessage e) "device not found" = false →
            (getAudioStream p).1 = Except.error e))) := by
  intro p
  refine ⟨?_, by decide, ?_, ?_, ?_⟩
  · rcases p with ⟨md, gd, gr, rest⟩
    cases md
    · right; left
      simp [getAudioStream]
    · cases gd
      · right; right; left
        simp [getAudioStream]
      · rcases gr with e | s
        · simp only [getAudioStream]
          by_cases h1 : (jsName e == "NotFoundError" ||
              strIncludes (jsMessage e) "device not found") = true
          · right; right; right; left
            simp [h1]
          · rw [Bool.not_eq_true] at h1
            by_cases h2 : (jsName e == "NotAllowedError" ||
                jsName e == "PermissionDeniedError") = true
            · right; right; right; right; left
              simp [h1, h2]
            · rw [Bool.not_eq_true] at h2
              by_cases h3 : (jsName e == "NotReadableError") = true
              · right; right; right; right; right; left
                simp [h1, h2, h3]
              · rw [Bool.not_eq_true] at h3
                right; right; right; right; right; right
                exact ⟨e, rfl, by simp [h1, h2, h3]⟩
        · left
          exact ⟨s, by simp [getAudioStream]⟩
  · intro hmd
    simp [getAudioStream, hmd]
  · intro hmd hgd
    simp [getAudioStream, hmd, hgd]
  · intro e hmd hgd hgum
    refine ⟨?_, ?_, ?_, ?_, ?_⟩
    · intro hn
      simp [getAudioStream, hmd, hgd, hgum, hn]
    · intro hsub
      simp [getAudioStream, hmd, hgd, hgum, hsub]
    · intro hsub hn
      have hnf : (jsName e == "NotFoundError") = false := by
        rcases hn with hn | hn <;> rw [hn] <;> decide
      have hna : (jsName e == "NotAllowedError" || jsName e == "PermissionDeniedError") = true := by
        rcases hn with hn | hn <;> rw [hn] <;> decide
      simp [getAudioStream, hmd, hgd, hgum, hnf, hsub, hna]
    · intro hsub hn
      have hnf : (jsName e == "NotFoundError") = false := by rw [hn]; decide
      have hna : (jsName e == "NotAllowedError") = false := by rw [hn]; decide
      have hnp : (jsName e == "PermissionDeniedError") = false := by rw [hn]; decide
      have hnr : (jsName e == "NotReadableError") = true := by rw [hn]; decide
      simp [getAudioStream, hmd, hgd, hgum, hnf, hna, hnp, hnr, hsub]
    · intro h1 h2 h3 h4 hsub
      have b1 : (jsName e == "NotFoundError") = false := by
        revert h1; cases hb : (jsName e == "NotFoundError") <;> simp_all
      have b2 : (jsName e == "NotAllowedError") = false := by
        revert h2; cases hb : (jsName e == "NotAllowedError") <;> simp_all
      have b3 : (jsName e == "PermissionDeniedError") = false := by
        revert h3; cases hb : (jsName e == "PermissionDeniedError") <;> simp_all
      have b4 : (jsName e == "NotReadableError") = false := by
        revert h4; cases hb : (jsName e == "NotReadableError") <;> simp_all
      simp [getAudioStream, hmd, hgd, hgum, b1, b2, b3, b4, hsub]

/-- Witness for C8: a plain `NotAllowedError` rejection is classified to
the permission-denied message. -/
theorem claim_C8_witness :
    (getAudioStream pPermissionDenied).1 = Except.error (.error msgPermissionDenied) :=
  ((claim_C8_acquire_classification pPermissionDenied).2.2.2.2
      (JsErr.dom "NotAllowedError" "Permission denied") rfl rfl rfl).2.2.1
    (by decide) (Or.inl rfl)

/-- Counterexample to C8 as stated: an error of category
`NotAllowedError` whose message contains `device not found` is
classified to the device-not-found message, not the permission-denied
message — the substring heuristic takes precedence over the category. -/
theorem claim_C8_counterexample :
    jsName eNotAllowedDnf = "NotAllowedError" ∧
    (getAudioStream pMisclassified).1 = Except.error (.error msgDeviceNotFound) ∧
    msgDeviceNotFound ≠ msgPermissionDenied := by
  refine ⟨rfl, rfl, by decide⟩

/-! ## Claim C9 -/

/-- C9: stopping an active lossless session performs exactly, and in
exactly this order: processing-node disconnect, source disconnect,
engine close, then the device stream's track stop — and resolves with
the WAV artifact. -/
theorem claim_C9_teardown_order :
    ∀ (fc : List (List ℕ)) (b : Bool) (r : Recorder) (s : ℕ),
      r.useMediaRecorder = false →
      r.processor = some () → r.source = some () → r.context = some () →
      r.stream = some s →
      (stop fc b r).2.2 =
        [Effect.processorDisconnect, Effect.sourceDisconnect, Effect.contextClose,
         Effect.trackStop s] ∧
      (stop fc b r).1 =
        Except.ok (createWavHeader (r.chunks.flatten.length * 2) ++ pcmBytes r.chunks.flatten,
          "audio/wav") := by
  intro fc b r s hu hp hsrc hc hst
  have hroute : (r.useMediaRecorder && r.mediaRecorder.isSome) = false := by
    rw [hu]; simp
  unfold stop
  rw [hroute]
  simp only [Bool.false_eq_true, if_false]
  rw [stopWav_eq_of_active r hp hsrc hc, hst]
  exact ⟨rfl, rfl⟩

/-- Witness for C9: the teardown effects of a concrete live session come
out in the required order. -/
theorem claim_C9_witness :
    (stop [] true rWavLive).2.2 =
      [Effect.processorDisconnect, Effect.sourceDisconnect, Effect.contextClose,
       Effect.trackStop 7] ∧
    (stop [] true rWavLive).1 =
      Except.ok (createWavHeader (rWavLive.chunks.flatten.length * 2) ++
        pcmBytes rWavLive.chunks.flatten, "audio/wav") :=
  claim_C9_teardown_order [] true rWavLive 7 rfl rfl rfl rfl rfl

/-! ## Claim C10 -/

/-- C10 (amended): whenever `stop()` resolves successfully, the stream
handle is null (so `isRecording` is false); on the lossy route the
encoder handle is null and the chunk buffer empty, and on the lossless
route the engine, source and processing-node handles are null and the
frame buffer empty. But a session that fell back to the lossy pipeline
after partially constructing the lossless graph retains its stale
engine handle after stop resolves — the handles are not reset on the
other pipeline's route. -/
theorem claim_C10_post_stop_reset :
    ∀ (fc : List (List ℕ)) (b : Bool) (r r' : Recorder) (bytes : List ℕ) (mime : String)
      (eff : List Effect),
      stop fc b r = (Except.ok (bytes, mime), r', eff) →
      r'.stream = none ∧ isRecording r' = false ∧
      ((r.useMediaRecorder && r.mediaRecorder.isSome) = true →
        r'.mediaRecorder = none ∧ r'.mediaRecorderChunks = []) ∧
      ((r.useMediaRecorder && r.mediaRecorder.isSome) = false →
        r'.processor = none ∧ r'.source = none ∧ r'.context = none ∧ r'.chunks = []) := by
  intro fc b r r' bytes mime eff h
  unfold stop at h
  by_cases hroute : (r.useMediaRecorder && r.mediaRecorder.isSome) = true
  · rw [if_pos hroute] at h
    unfold stopMediaRecorder at h
    rcases hmr : r.mediaRecorder with - | mr
    · simp only [hmr] at h
      simp at h
    · simp only [hmr] at h
      by_cases hst : mr.recState = MRRecState.inactive
      · rw [if_pos hst] at h
        simp at h
      · rw [if_neg hst] at h
        by_cases hok : b = true
        · rw [hok] at h
          simp only [Bool.not_true, Bool.false_eq_true, if_false, Prod.mk.injEq] at h
          obtain ⟨-, h2, -⟩ := h
          subst h2
          refine ⟨rfl, rfl, fun _ => ⟨rfl, rfl⟩, fun hcon => ?_⟩
          simp only [Option.isSome_some, Bool.and_true] at hcon
          simp only [hmr, Option.isSome_some, Bool.and_true] at hroute
          rw [hcon] at hroute
          exact absurd hroute (by simp)
        · have hb : b = false := by revert hok; cases b <;> simp
          rw [hb] at h
          simp only [Bool.not_false, if_true] at h
          simp at h
  · rw [if_neg hroute] at h
    have hroute2 : (r.useMediaRecorder && r.mediaRecorder.isSome) = false := by
      revert hroute; cases (r.useMediaRecorder && r.mediaRecorder.isSome) <;> simp
    unfold stopWav at h
    by_cases hg : (r.processor.isNone || r.source.isNone || r.context.isNone) = true
    · rw [if_pos hg] at h
      simp at h
    · rw [if_neg hg] at h
      simp only [Prod.mk.injEq] at h
      obtain ⟨-, h2, -⟩ := h
      subst h2
      exact ⟨rfl, rfl,
        fun hcon => absurd (hroute2.symm.trans hcon) (by simp),
        fun _ => ⟨rfl, rfl, rfl, rfl⟩⟩

/-- Witness for C10: a successful lossless stop resets all session
fields of a concrete live session. -/
theorem claim_C10_witness :
    initRecorder.stream = none ∧ isRecording initRecorder = false ∧
    ((rWavLive.useMediaRecorder && rWavLive.mediaRecorder.isSome) = true →
      initRecorder.mediaRecorder = none ∧ initRecorder.mediaRecorderChunks = []) ∧
    ((rWavLive.useMediaRecorder && rWavLive.mediaRecorder.isSome) = false →
      initRecorder.processor = none ∧ initRecorder.source = none ∧
      initRecorder.context = none ∧ initRecorder.chunks = []) :=
  claim_C10_post_stop_reset [] true rWavLive initRecorder
    (createWavHeader 2 ++ pcmBytes [2]) "audio/wav"
    [Effect.processorDisconnect, Effect.sourceDisconnect, Effect.contextClose,
     Effect.trackStop 7] (by rfl)

/-- Counterexample to C10 as stated: acquisition succeeds, the lossless
source-node construction throws, the session falls back to the lossy
pipeline and records; after `stop()` resolves successfully, the engine
handle is still non-null. -/
theorem claim_C10_counterexample :
    (start pMSSFail initRecorder).1 = Except.ok () ∧
    (stop [[1]] true (start pMSSFail initRecorder).2.1).1 =
      Except.ok ([1], "audio/webm") ∧
    (stop [[1]] true (start pMSSFail initRecorder).2.1).2.1.context = some () := by
  refine ⟨rfl, rfl, rfl⟩
